import Mathlib

/-!
# Verification of the NetworkSage demo pipeline (`demo.py`)

Shallow embedding of the demo command-line pipeline: input classification by
content signature, sample upload, ingestion polling, action (summary /
categorization) polling, lazy action provisioning, and report rendering.

Modelling conventions:
* HTTP responses received from the remote service are inputs of the model,
  as a status code plus the result of `json.loads` on the response text
  (`none` when the text is not valid JSON).
* A poll loop, unbounded in the source, is embedded as structural recursion
  over the finite list of responses the remote service will give; running
  out of responses is reported as a distinguished "still polling" outcome.
* An uncaught Python exception is `Except.error ()`; code that catches all
  exceptions (`try`/bare `except`) is embedded by the corresponding branch.
* Each iteration of a poll loop first blocks for 2 seconds
  (`threading.Event.wait(2.0)` on an unset event) and then issues its
  request, so the request of iteration `i` (1-based) is issued `2*i`
  seconds after the loop is entered.
-/

set_option autoImplicit false

namespace Demo

/-- A parsed JSON value, as produced by Python's `json.loads`. -/
inductive Json where
  | null
  | bool (b : Bool)
  | num (n : Int)
  | str (s : String)
  | arr (elems : List Json)
  | obj (fields : List (String × Json))

/-- Python `j[k]` for a string key `k`: succeeds only on a dict that has the
key (first binding wins; Python dicts have unique keys).  On a non-dict it
raises `TypeError`, on a dict without the key it raises `KeyError`; both are
`none` here, and the caller decides whether the exception is caught. -/
def Json.get : Json → String → Option Json
  | .obj fields, k => fields.lookup k
  | _, _ => none

/-- Python truthiness of a JSON value (`if json_data["error"]:`). -/
def Json.truthy : Json → Bool
  | .null => false
  | .bool b => b
  | .num n => n != 0
  | .str s => !s.isEmpty
  | .arr xs => !xs.isEmpty
  | .obj fs => !fs.isEmpty

/-- Python `len(j)`: defined on strings, lists and dicts; raises `TypeError`
(here `none`) otherwise. -/
def Json.size : Json → Option Nat
  | .str s => some s.length
  | .arr xs => some xs.length
  | .obj fs => some fs.length
  | _ => none

/-- An HTTP response as observed by the demo: its status code and the result
of `json.loads(response.text)` (`none` when the text is not valid JSON). -/
structure Response where
  status : Nat
  jsonBody : Option Json

/-! ## Input classifier (`__main__`, lines 209-220)

`file_type = magic.from_file(...)` produces the content-derived type
signature; the signature string is the classifier's input.  The code then
tests `re.match(r"^(p|)cap(|(|\-)ng) capture file", file_type)` and
`re.match(r"^(ASCII text|JSON data)$", file_type)` in that order. -/

/-- The six capture-format markers generated by the alternations of the
regex `^(p|)cap(|(|\-)ng) capture file`: `(p|)` contributes an optional
leading `p`, `(|(|\-)ng)` contributes nothing, `ng` or `-ng`. -/
def pcapMarkers : List String :=
  ["pcap capture file", "pcapng capture file", "pcap-ng capture file",
   "cap capture file", "capng capture file", "cap-ng capture file"]

/-- `re.match` of the capture regex: anchored at the start and with no `$`,
it succeeds exactly when some marker begins the signature (so signatures
carrying trailing detail, such as a gzip annotation, still match). -/
def matches_pcap (file_type : String) : Bool :=
  pcapMarkers.any fun m => List.isPrefixOf m.data file_type.data

/-- `re.match(r"^(ASCII text|JSON data)$", file_type)`: anchored on both
sides; Python's `$` also matches just before a single trailing newline. -/
def matches_zeek (file_type : String) : Bool :=
  decide (file_type = "ASCII text") || decide (file_type = "JSON data") ||
  decide (file_type = "ASCII text\n") || decide (file_type = "JSON data\n")

/-- The classification of an input file. -/
inductive FileClass where
  | PCAP
  | Zeek
  | unrecognized
deriving DecidableEq, Repr

/-- The classification block: the capture regex is tried first, then the
ASCII-text/JSON regex; any other signature is unrecognized (fatal). -/
def classify (file_type : String) : FileClass :=
  if matches_pcap file_type then .PCAP
  else if matches_zeek file_type then .Zeek
  else .unrecognized

/-! ## Error envelope and sample metadata (`had_error`,
`get_private_sample_metadata`, `is_sample_processed`) -/

/-- `had_error(response)`: a non-200 status short-circuits to `True` without
parsing; otherwise the body is parsed (`json.loads` raising uncaught on
invalid JSON) and the truthiness of its `"error"` field is returned
(`KeyError` uncaught when the field is missing). -/
def had_error (response : Response) : Except Unit Bool :=
  if response.status ≠ 200 then .ok true
  else
    match response.jsonBody with
    | none => .error ()
    | some j =>
      match j.get "error" with
      | none => .error ()
      | some e => .ok e.truthy

/-- `get_private_sample_metadata(uuid)`, applied to the response of its GET:
returns `none` when `had_error` reports an error or when the `"body"`
payload is empty (`len(sample_metadata) == 0`, "not yet processed");
otherwise returns the metadata.  A missing `"body"` key or a `len()` on a
non-sized value raises uncaught. -/
def get_private_sample_metadata (result : Response) : Except Unit (Option Json) :=
  match had_error result with
  | .error e => .error e
  | .ok true => .ok none
  | .ok false =>
    match result.jsonBody with
    | none => .error ()
    | some j =>
      match j.get "body" with
      | none => .error ()
      | some body =>
        match body.size with
        | none => .error ()
        | some n => if n = 0 then .ok none else .ok (some body)

/-- `is_sample_processed(uuid)`: processed iff metadata was returned and its
`"trafficDate"` is not the empty string.  Indexing `["trafficDate"]` on
metadata that lacks the key (or is not a dict) raises uncaught; Python's
`!= ""` is `True` for every non-string value. -/
def is_sample_processed (result : Response) : Except Unit Bool :=
  match get_private_sample_metadata result with
  | .error e => .error e
  | .ok none => .ok false
  | .ok (some m) =>
    match m.get "trafficDate" with
    | none => .error ()
    | some (.str s) => .ok (!s.isEmpty)
    | some _ => .ok true

/-- Status of a poll loop run against a finite list of responses. -/
inductive PollStatus where
  | done
  | crashed
  | exhausted
deriving DecidableEq, Repr

/-- `wait_for_sample_processing(uuid)` over the successive metadata
responses, instrumented with the elapsed time (in seconds) at which each GET
is issued: each iteration waits 2 seconds and then issues its GET, so with
loop entry at time `t` the requests go out at `t+2`, `t+4`, ….  Returns the
request times together with how the run ended: `done` when a response showed
the sample processed, `crashed` when an iteration raised uncaught,
`exhausted` when the responses ran out with the loop still going. -/
def wait_for_sample_processing (t : Nat) : List Response → List Nat × PollStatus
  | [] => ([], .exhausted)
  | r :: rs =>
    match is_sample_processed r with
    | .error _ => ([t + 2], .crashed)
    | .ok true => ([t + 2], .done)
    | .ok false =>
      ((t + 2) :: (wait_for_sample_processing (t + 2) rs).1,
       (wait_for_sample_processing (t + 2) rs).2)

/-! ## Action polling (`wait_for_sample_action`)

`while not action_checking_timer.wait(2.0): GET; try: parse; if
body.status == "generated": set timer; data = body[action]; break;
except: print`.  The `except` catches everything inside the `try`; after it,
the loop guard re-checks the timer, so an exception raised *after* the timer
was set (a "generated" body lacking the action key) ends the loop with
`data` still `None`. -/

/-- What one iteration of the action-poll loop does with its response. -/
inductive StepOutcome where
  | retry
  | finish (d : Option Json)

/-- One iteration body of `wait_for_sample_action` on its GET response:
a parse failure, a missing `"body"` or `"status"` field, or a status other
than the string `"generated"` leaves the timer unset (retry); a status equal
to `"generated"` sets the timer and then extracts `body[action]`, so the
loop finishes — with the payload, or with `None` when the key is absent
(the `KeyError` is caught but the set timer ends the loop). -/
def action_step (action : String) (r : Response) : StepOutcome :=
  match r.jsonBody with
  | none => .retry
  | some j =>
    match j.get "body" with
    | none => .retry
    | some body =>
      match body.get "status" with
      | none => .retry
      | some (.str s) =>
        if s = "generated" then .finish (body.get action)
        else .retry
      | some _ => .retry

/-- `wait_for_sample_action(url, action)` over the successive GET responses,
instrumented with the number of GETs issued.  The first component is `none`
when the responses ran out with the loop still polling, `some d` when the
loop returned `d` (`d = none` is the caught-`KeyError` path above). -/
def wait_for_sample_action (action : String) : List Response → Option (Option Json) × Nat
  | [] => (none, 0)
  | r :: rs =>
    match action_step action r with
    | .finish d => (some d, 1)
    | .retry =>
      ((wait_for_sample_action action rs).1,
       (wait_for_sample_action action rs).2 + 1)

/-! ## Summary request (`summarize_sample`) and upload (`upload_sample`) -/

/-- `summarize_sample(sample_id)`: issues the summary POST, then inside a
`try` parses the response and checks the truthiness of its `"error"` field —
the HTTP status code is never examined.  A parse failure, a missing
`"error"` key (caught `KeyError`) or a truthy `"error"` returns `None`
without polling; otherwise the summary poll runs on `pollResps`.  Returns
the poll result (shape as in `wait_for_sample_action`) and the number of
poll GETs issued. -/
def summarize_sample (postResp : Response) (pollResps : List Response) :
    Option (Option Json) × Nat :=
  match postResp.jsonBody with
  | none => (some none, 0)
  | some j =>
    match j.get "error" with
    | none => (some none, 0)
    | some e =>
      if e.truthy then (some none, 0)
      else wait_for_sample_action "summary" pollResps

/-- `upload_sample(converted_file_location, filetype)`: the POST itself is
outside the `try`, so a transport exception propagates uncaught
(`Except.error`).  Given a response, the `try` parses the text and extracts
`result["body"]["sampleId"]`; any failure in that chain is caught and
`None` is returned.  Neither the status code nor the `"error"` field is
examined. -/
def upload_sample (resp : Except Unit Response) : Except Unit (Option Json) :=
  match resp with
  | .error e => .error e
  | .ok response =>
    .ok (match response.jsonBody with
      | none => none
      | some j =>
        match j.get "body" with
        | none => none
        | some body => body.get "sampleId")

/-! ## Lazy provisioning (`get_data_for_existing_sample`) -/

/-- HTTP request methods issued by the demo. -/
inductive Method where
  | GET
  | POST
deriving DecidableEq, Repr

/-- The extraction attempted by `get_data_for_existing_sample`'s initial
GET: `result["body"][action]`, `none` when any step raises. -/
def existing_action_data (action : String) (r : Response) : Option Json :=
  match r.jsonBody with
  | none => none
  | some j =>
    match j.get "body" with
    | none => none
    | some body => body.get action

/-- `get_data_for_existing_sample(action, sampleid)`: GET the action URL and
try to extract `result["body"][action]`; on any exception, print, issue one
POST to the same URL (its response is never read) and delegate to
`wait_for_sample_action`.  Instrumented with the list of requests issued, in
order. -/
def get_data_for_existing_sample (action : String) (getResp : Response)
    (pollResps : List Response) : Option (Option Json) × List Method :=
  match existing_action_data action getResp with
  | some d => (some (some d), [Method.GET])
  | none =>
    ((wait_for_sample_action action pollResps).1,
     Method.GET :: Method.POST ::
       List.replicate (wait_for_sample_action action pollResps).2 Method.GET)

/-! ## Report rendering and the end-to-end flow (`__main__`, e2e branch) -/

/-- The Markdown written for the e2e flow (lines 268-272), as a function of
the parsed summary `sum_json`: the four fields are concatenated into one
string in the fixed order Verdict, Confidence, Summary, Details.  Any
missing field raises `KeyError` and any non-string field makes the `str +`
concatenation raise `TypeError` (both `none` here); either way nothing is
ever passed to `out.write`. -/
def writeReport (sum_json : Json) : Option String :=
  match sum_json.get "verdict" with
  | some (.str v) =>
    (match sum_json.get "confidence" with
      | some (.str c) =>
        (match sum_json.get "summary" with
          | some (.str s) =>
            (match sum_json.get "details" with
              | some (.str d) =>
                some ("\n\n**Verdict:** " ++ v ++ "\n**Confidence:** " ++ c ++
                      "\n**Summary:** " ++ s ++ "\n\n**Details:** " ++ d ++ "\n\n")
              | _ => none)
          | _ => none)
      | _ => none)
  | _ => none

/-- The network calls the e2e flow can issue, in the order the pipeline
reaches them. -/
inductive NetCall where
  | upload
  | getMetadata
  | postSummary
  | getSummary
deriving DecidableEq, Repr

/-- How a (finitely observed) run of the e2e flow ended. -/
inductive Outcome where
  | exited (code : Nat)
  | crashed
  | stillPolling
deriving DecidableEq, Repr

/-- Observable result of an e2e run: the network calls issued in order, how
the process ended, and the state of the output file (`none` when it was
never opened, `some s` when it was opened for writing and holds `s`). -/
structure E2EResult where
  calls : List NetCall
  outcome : Outcome
  reportFile : Option String

/-- Lines 258-276 of `__main__`: the summary POST and poll
(`summarize_sample`), the `summary is None` abort, then
`sum_json = json.loads(summary)` (only defined on a string payload — a
non-string raises `TypeError`, caught, exit 1, file untouched) and the
report write: `open(output_filename, "w")` truncates the file *before* the
template string is built, so a missing or non-string field exits 1 leaving
the file empty.  `calls1` are the network calls already issued. -/
def e2e_summary_phase (parse : String → Option Json) (calls1 : List NetCall)
    (sumPostResp : Response) (sumPollResps : List Response) : E2EResult :=
  match summarize_sample sumPostResp sumPollResps with
  | (sumRes, sumGets) =>
    let calls2 := calls1 ++ NetCall.postSummary ::
      List.replicate sumGets NetCall.getSummary
    match sumRes with
    | none => ⟨calls2, .stillPolling, none⟩
    | some none => ⟨calls2, .exited 1, none⟩
    | some (some payload) =>
      match payload with
      | .str s =>
        (match parse s with
          | none => ⟨calls2, .exited 1, none⟩
          | some sum_json =>
            match writeReport sum_json with
            | some content => ⟨calls2, .exited 0, some content⟩
            | none => ⟨calls2, .exited 1, some ""⟩)
      | _ => ⟨calls2, .exited 1, none⟩

/-- The e2e branch of `__main__` (lines 203-276), abstracting the external
collaborators: `parse` is the behavior of `json.loads` on the summary
payload string, `sig` the signature `magic.from_file` returned, and each
network interaction is represented by the response(s) received.  An
unrecognized signature exits 1 before any network call; a `None` sample ID
exits 1 after the upload; then the ingestion poll runs and, when it
completes, the summary phase follows. -/
def run_e2e (parse : String → Option Json) (sig : String)
    (uploadResp : Except Unit Response) (procResps : List Response)
    (sumPostResp : Response) (sumPollResps : List Response) : E2EResult :=
  if classify sig = FileClass.unrecognized then ⟨[], .exited 1, none⟩
  else
    match upload_sample uploadResp with
    | .error _ => ⟨[.upload], .crashed, none⟩
    | .ok none => ⟨[.upload], .exited 1, none⟩
    | .ok (some _) =>
      match wait_for_sample_processing 0 procResps with
      | (procTimes, procStat) =>
        let calls1 := NetCall.upload :: procTimes.map fun _ => NetCall.getMetadata
        match procStat with
        | .crashed => ⟨calls1, .crashed, none⟩
        | .exhausted => ⟨calls1, .stillPolling, none⟩
        | .done => e2e_summary_phase parse calls1 sumPostResp sumPollResps

/-! ## Concrete response fixtures used in the theorems below -/

/-- A 200 metadata response whose `body` is the empty object: the sample is
not yet processed. -/
def emptyMetaResp : Response :=
  ⟨200, some (.obj [("error", .bool false), ("body", .obj [])])⟩

/-- A 200 metadata response whose `body` carries a non-empty
`trafficDate`: the sample has been processed. -/
def processedResp : Response :=
  ⟨200, some (.obj [("error", .bool false),
    ("body", .obj [("dateCreated", .str "01/01/2024 00:00:00"),
                   ("fileName", .str "sample.sf"),
                   ("trafficDate", .str "1699999999.0")])])⟩

/-- A successful upload response carrying `body.sampleId = "abc123"`. -/
def goodUploadResp : Response :=
  ⟨200, some (.obj [("error", .bool false),
    ("body", .obj [("sampleId", .str "abc123")])])⟩

/-- A successful (error-false) response to the initial summary POST. -/
def goodSumPostResp : Response :=
  ⟨200, some (.obj [("error", .bool false),
    ("body", .obj [("status", .str "requested")])])⟩

/-- An action-poll response whose status is still `"pending"`. -/
def pendingResp : Response :=
  ⟨200, some (.obj [("error", .bool false),
    ("body", .obj [("status", .str "pending")])])⟩

/-- An action-poll response with status `"generated"` and a summary
payload (the JSON-encoded summary string `"{...}"`). -/
def genSummaryResp : Response :=
  ⟨200, some (.obj [("error", .bool false),
    ("body", .obj [("status", .str "generated"),
                   ("summary", .str "{...}")])])⟩

/-- An action-poll response with status `"generated"` but no `summary`
key in its body. -/
def genNoKeyResp : Response :=
  ⟨200, some (.obj [("error", .bool false),
    ("body", .obj [("status", .str "generated")])])⟩

/-- The spec's example summary body with the four report fields. -/
def demoSummaryJson : Json :=
  .obj [("verdict", .str "Benign"), ("confidence", .str "High"),
        ("summary", .str "No threats found."), ("details", .str "...")]

/-- The network calls of a one-poll-each fully successful e2e run. -/
def goodCalls : List NetCall :=
  [.upload, .getMetadata, .postSummary, .getSummary]

/-- A 200 metadata response whose text is not valid JSON. -/
def invalidJsonResp : Response := ⟨200, none⟩

/-- A 200 metadata response with a non-empty `body` object that lacks the
`trafficDate` key. -/
def noTrafficDateResp : Response :=
  ⟨200, some (.obj [("error", .bool false),
    ("body", .obj [("fileName", .str "sample.sf")])])⟩

/-- An upload response whose body is an error envelope without a
`sampleId`. -/
def badUploadResp : Response :=
  ⟨200, some (.obj [("error", .bool true), ("body", .str "Invalid API key.")])⟩

/-- A summary-POST response with `error: true`. -/
def errSumPostResp : Response :=
  ⟨200, some (.obj [("error", .bool true), ("body", .str "Invalid API key.")])⟩

/-! ## Helper lemmas -/

/-- A signature accepted by the ASCII-text/JSON regex is rejected by the
capture regex. -/
lemma zeek_not_pcap (sig : String) (h : matches_zeek sig = true) :
    matches_pcap sig = false := by
  unfold matches_zeek at h
  simp only [Bool.or_eq_true, decide_eq_true_eq] at h
  rcases h with ((h | h) | h) | h <;> subst h <;> decide

lemma classify_pcap_fixture : classify "pcap capture file" = FileClass.PCAP := by
  decide

lemma upload_good_fixture :
    upload_sample (.ok goodUploadResp) = .ok (some (.str "abc123")) := rfl

lemma processing_good_fixture :
    wait_for_sample_processing 0 [processedResp] = ([2], PollStatus.done) := rfl

/-- If the check of the head response raises, the ingestion poll crashes
right there, after its single GET. -/
lemma wfp_cons_crashed (r : Response) (rs : List Response) (t : Nat)
    (h : is_sample_processed r = .error ()) :
    wait_for_sample_processing t (r :: rs) = ([t + 2], .crashed) := by
  simp [wait_for_sample_processing, h]

/-- A 200 response whose text is not valid JSON makes
`is_sample_processed` raise (via `json.loads` inside `had_error`). -/
lemma invalid_json_raises (r : Response) (h1 : r.status = 200)
    (h2 : r.jsonBody = none) : is_sample_processed r = .error () := by
  simp [is_sample_processed, get_private_sample_metadata, had_error, h1, h2]

/-- The ingestion poll reports `done` only if some consumed response showed
the sample processed. -/
lemma processing_done_mem (rs : List Response) :
    ∀ t : Nat, (wait_for_sample_processing t rs).2 = PollStatus.done →
      ∃ r ∈ rs, is_sample_processed r = .ok true := by
  induction rs with
  | nil => intro t h; simp [wait_for_sample_processing] at h
  | cons r rs ih =>
    intro t h
    unfold wait_for_sample_processing at h
    cases hr : is_sample_processed r with
    | error e => rw [hr] at h; exact absurd h (by simp)
    | ok b =>
      cases b with
      | true => exact ⟨r, List.mem_cons_self _ _, hr⟩
      | false =>
        rw [hr] at h
        obtain ⟨x, hx, hxx⟩ := ih (t + 2) h
        exact ⟨x, List.mem_cons_of_mem _ hx, hxx⟩

/-- Reduction of the good-stage e2e run down to the final parse-and-report
step: classification, upload, ingestion poll and summary poll all succeed
with one response each, leaving the run at `json.loads("{...}")`. -/
lemma run_e2e_good_to_report (parse : String → Option Json) :
    run_e2e parse "pcap capture file" (.ok goodUploadResp) [processedResp]
      goodSumPostResp [genSummaryResp]
      = match parse "{...}" with
        | none => ⟨goodCalls, .exited 1, none⟩
        | some sum_json =>
          match writeReport sum_json with
          | some content => ⟨goodCalls, .exited 0, some content⟩
          | none => ⟨goodCalls, .exited 1, some ""⟩ := rfl

/-- No POST occurs among the GETs of an action poll. -/
lemma count_post_replicate_get (n : Nat) :
    (List.replicate n Method.GET).count Method.POST = 0 := by
  induction n with
  | zero => rfl
  | succ n ih => simp [List.replicate_succ, List.count_cons, ih]

/-! ## Claims -/

/-- C1: `classify` is a total function into the three-valued `FileClass`,
so every content-derived type signature is mapped to exactly one of
{PCAP, Zeek, unrecognized}.  A signature the capture regex accepts (one of
the pcap/pcapng marker variants begins it, trailing annotations such as a
gzip wrapper note included) classifies as PCAP; a plain-ASCII-text or
JSON-data signature classifies as Zeek; and when the classification is
unrecognized the e2e run exits with code 1 having issued no network call at
all. -/
theorem C1_classifier (sig : String) :
    (matches_pcap sig = true → classify sig = FileClass.PCAP)
  ∧ (matches_zeek sig = true → classify sig = FileClass.Zeek)
  ∧ (classify sig = FileClass.unrecognized →
      ∀ (parse : String → Option Json) (uploadResp : Except Unit Response)
        (procResps : List Response) (sumPostResp : Response)
        (sumPollResps : List Response),
        run_e2e parse sig uploadResp procResps sumPostResp sumPollResps =
          ⟨[], .exited 1, none⟩) := by
  refine ⟨fun h => ?_, fun h => ?_, fun h parse u p sp sps => ?_⟩
  · simp [classify, h]
  · simp [classify, zeek_not_pcap sig h, h]
  · simp [run_e2e, h]

/-- Witness for C1 at three concrete signatures: a pcap signature with
trailing detail, the plain-ASCII signature, and an unrecognizable one. -/
theorem C1_classifier_witness :
    classify "pcap capture file, microsecond ts (little-endian)" = FileClass.PCAP
  ∧ classify "ASCII text" = FileClass.Zeek
  ∧ run_e2e (fun _ => none) "ELF 64-bit LSB executable" (.ok goodUploadResp) []
      goodSumPostResp [] = ⟨[], .exited 1, none⟩ :=
  ⟨(C1_classifier _).1 (by decide), (C1_classifier _).2.1 (by decide),
   (C1_classifier _).2.2 (by decide) _ _ _ _ _⟩

/-- C4 counterexample: on the metadata sequence `{}`, `{}`,
`{trafficDate: ...}` the ingestion poll does issue exactly 3 GETs and
return after the third — but at ~2s, ~4s and ~6s, not at ~0s, ~2s and ~4s
as claimed: `Event.wait(2.0)` blocks for 2 seconds *before* each check,
the first included. -/
theorem C4_counterexample :
    wait_for_sample_processing 0 [emptyMetaResp, emptyMetaResp, processedResp]
      = ([2, 4, 6], .done)
  ∧ (wait_for_sample_processing 0 [emptyMetaResp, emptyMetaResp, processedResp]).1
      ≠ [0, 2, 4] :=
  ⟨rfl, by decide⟩

/-- C4 amended: on `{}`, `{}`, `{trafficDate: ...}` the ingestion poll
issues exactly 3 GETs, at ~2s, ~4s and ~6s (a 2-second wait precedes every
check, the first included), and returns after the third no matter how many
further responses the service would give; an empty metadata body means
"not yet processed" (keep polling), and the poll reports completion only
after consuming a response whose sample is processed (non-empty
`trafficDate`). -/
theorem C4_ingestion_poll (extra : List Response) (t : Nat) (rs : List Response) :
    wait_for_sample_processing 0
        (emptyMetaResp :: emptyMetaResp :: processedResp :: extra)
      = ([2, 4, 6], .done)
  ∧ ((wait_for_sample_processing t rs).2 = .done →
      ∃ r ∈ rs, is_sample_processed r = .ok true)
  ∧ is_sample_processed emptyMetaResp = .ok false :=
  ⟨rfl, processing_done_mem rs t, rfl⟩

/-- Witness for C4 (amended) at the one-response instance. -/
theorem C4_ingestion_poll_witness :
    (wait_for_sample_processing 0 [processedResp]).2 = PollStatus.done
  ∧ ∃ r ∈ [processedResp], is_sample_processed r = .ok true :=
  ⟨by decide, (C4_ingestion_poll [] 0 [processedResp]).2.1 (by decide)⟩

/-- C9: during ingestion polling, a 200 response whose text is not valid
JSON (`json.loads` in `had_error` has no handler), and a non-empty metadata
object lacking the `trafficDate` key (`sample_metadata["trafficDate"]` in
`is_sample_processed` has no handler), both raise uncaught and crash the
poll — and the whole e2e run — abnormally; the action poll, by contrast,
swallows an unparseable response and retries. -/
theorem C9_ingestion_poll_uncaught (r : Response) (rs : List Response) (t : Nat) :
    (r.status = 200 → r.jsonBody = none →
      is_sample_processed r = .error () ∧
      wait_for_sample_processing t (r :: rs) = ([t + 2], .crashed))
  ∧ (∀ (j e : Json) (fs : List (String × Json)),
      r.status = 200 → r.jsonBody = some j →
      j.get "error" = some e → e.truthy = false →
      j.get "body" = some (.obj fs) → fs ≠ [] →
      fs.lookup "trafficDate" = none →
      is_sample_processed r = .error () ∧
      wait_for_sample_processing t (r :: rs) = ([t + 2], .crashed))
  ∧ (∀ (a : String) (r2 : Response), r2.jsonBody = none →
      action_step a r2 = .retry)
  ∧ (∀ (parse : String → Option Json) (sumPost : Response)
        (sumPolls : List Response),
      r.status = 200 → r.jsonBody = none →
      run_e2e parse "pcap capture file" (.ok goodUploadResp) (r :: rs)
        sumPost sumPolls = ⟨[.upload, .getMetadata], .crashed, none⟩) := by
  refine ⟨fun h1 h2 => ?_, fun j e fs h1 h2 he ht hb hne hl => ?_,
    fun a r2 h => ?_, fun parse sp sps h1 h2 => ?_⟩
  · have hc := invalid_json_raises r h1 h2
    exact ⟨hc, wfp_cons_crashed r rs t hc⟩
  · have hlen : fs.length ≠ 0 := (List.length_pos.mpr hne).ne'
    have herr : had_error r = .ok false := by
      simp [had_error, h1, h2, he, ht]
    have hmeta : get_private_sample_metadata r = .ok (some (.obj fs)) := by
      simp [get_private_sample_metadata, herr, h2, hb, Json.size, hlen]
    have hc : is_sample_processed r = .error () := by
      simp [is_sample_processed, hmeta, Json.get, hl]
    exact ⟨hc, wfp_cons_crashed r rs t hc⟩
  · simp [action_step, h]
  · have hc := invalid_json_raises r h1 h2
    simp [run_e2e, classify_pcap_fixture, upload_good_fixture,
      wfp_cons_crashed r rs 0 hc]

/-- Witness for C9 at two concrete responses: an invalid-JSON 200 response
and a non-empty metadata body without `trafficDate`. -/
theorem C9_ingestion_poll_uncaught_witness :
    (is_sample_processed invalidJsonResp = .error () ∧
      wait_for_sample_processing 0 [invalidJsonResp] = ([2], .crashed))
  ∧ (is_sample_processed noTrafficDateResp = .error () ∧
      wait_for_sample_processing 0 [noTrafficDateResp] = ([2], .crashed))
  ∧ run_e2e (fun _ => none) "pcap capture file" (.ok goodUploadResp)
      [invalidJsonResp] goodSumPostResp []
      = ⟨[.upload, .getMetadata], .crashed, none⟩ :=
  ⟨(C9_ingestion_poll_uncaught invalidJsonResp [] 0).1 rfl rfl,
   (C9_ingestion_poll_uncaught noTrafficDateResp [] 0).2.1
     (Json.obj [("error", .bool false),
       ("body", .obj [("fileName", .str "sample.sf")])])
     (.bool false) [("fileName", .str "sample.sf")]
     rfl rfl rfl rfl rfl (List.cons_ne_nil _ _) rfl,
   (C9_ingestion_poll_uncaught invalidJsonResp [] 0).2.2.2
     (fun _ => none) goodSumPostResp [] rfl rfl⟩

/-- C3 counterexample: a poll response with `status: "generated"` but no
`summary` key is caught and logged by the loop's bare `except`, yet it does
*not* continue polling — the completion flag was already set, so the loop
exits with `None` even though a good response was next, and the caller
treats the run as fatally failed (exit 1).  So "any malformed response is a
retry-able miss, never a fatal error" is false. -/
theorem C3_counterexample :
    wait_for_sample_action "summary" [genNoKeyResp, genSummaryResp]
      = (some none, 1)
  ∧ (run_e2e (fun _ => some demoSummaryJson) "pcap capture file"
      (.ok goodUploadResp) [processedResp] goodSumPostResp
      [genNoKeyResp, genSummaryResp]).outcome = .exited 1 :=
  ⟨rfl, rfl⟩

/-- C3 amended: the action poller returns the action's payload only after a
response whose `body.status` equals `"generated"` (on the spec's
pending-then-generated example it returns the summary after the second
response); a response that fails to parse, lacks the `body` or `status`
field, or carries a non-`"generated"` status is treated as a retry-able
miss and polling continues — but a response whose status *is* `"generated"`
ends the loop at once, returning the `body[action]` payload when present
and an absent result (fatal to the caller) when the key is missing. -/
theorem C3_action_poll (action : String) (r : Response) (rs : List Response) :
    (action_step action r = .retry →
      wait_for_sample_action action (r :: rs)
        = ((wait_for_sample_action action rs).1,
           (wait_for_sample_action action rs).2 + 1))
  ∧ (r.jsonBody = none → action_step action r = .retry)
  ∧ (∀ (j : Json), r.jsonBody = some j → j.get "body" = none →
      action_step action r = .retry)
  ∧ (∀ (j body st : Json), r.jsonBody = some j → j.get "body" = some body →
      body.get "status" = some st → st ≠ .str "generated" →
      action_step action r = .retry)
  ∧ (∀ (j body : Json), r.jsonBody = some j → j.get "body" = some body →
      body.get "status" = some (.str "generated") →
      wait_for_sample_action action (r :: rs) = (some (body.get action), 1))
  ∧ wait_for_sample_action "summary" [pendingResp, genSummaryResp]
      = (some (some (.str "{...}")), 2) := by
  refine ⟨fun h => ?_, fun h => ?_, fun j h1 h2 => ?_,
    fun j body st h1 h2 h3 hne => ?_, fun j body h1 h2 h3 => ?_, rfl⟩
  · simp [wait_for_sample_action, h]
  · simp [action_step, h]
  · simp [action_step, h1, h2]
  · cases st with
    | str s =>
      have hs : ¬ s = "generated" := fun hs => hne (by rw [hs])
      simp [action_step, h1, h2, h3, hs]
    | null => simp [action_step, h1, h2, h3]
    | bool b => simp [action_step, h1, h2, h3]
    | num n => simp [action_step, h1, h2, h3]
    | arr xs => simp [action_step, h1, h2, h3]
    | obj fs => simp [action_step, h1, h2, h3]
  · simp [wait_for_sample_action, action_step, h1, h2, h3]

/-- Witness for C3 (amended) at concrete inputs: the pending-then-generated
sequence, and a retried unparseable response. -/
theorem C3_action_poll_witness :
    wait_for_sample_action "summary" [pendingResp, genSummaryResp]
      = (some (some (.str "{...}")), 2)
  ∧ action_step "summary" invalidJsonResp = .retry :=
  ⟨(C3_action_poll "summary" pendingResp []).2.2.2.2.2,
   (C3_action_poll "summary" invalidJsonResp []).2.1 rfl⟩

/-- C8: when a poll response has `body.status = "generated"` but the body
lacks the requested action's key, the loop returns `None` after that single
response instead of retrying — `action_checking_timer.set()` runs before
`result["body"][action]` raises, so after the caught `KeyError` the loop
guard sees the set flag and exits; the caller (here the e2e flow, whose
`summary is None` check fires) then treats the run as failed. -/
theorem C8_generated_without_key (action : String) (r : Response)
    (rs : List Response) (j body : Json) :
    (r.jsonBody = some j → j.get "body" = some body →
      body.get "status" = some (.str "generated") → body.get action = none →
      wait_for_sample_action action (r :: rs) = (some none, 1))
  ∧ run_e2e (fun _ => some demoSummaryJson) "pcap capture file"
      (.ok goodUploadResp) [processedResp] goodSumPostResp [genNoKeyResp]
      = ⟨goodCalls, .exited 1, none⟩ := by
  refine ⟨fun h1 h2 h3 h4 => ?_, rfl⟩
  simp [wait_for_sample_action, action_step, h1, h2, h3, h4]

/-- Witness for C8 at the concrete generated-without-summary response. -/
theorem C8_generated_without_key_witness :
    wait_for_sample_action "summary" [genNoKeyResp] = (some none, 1) :=
  (C8_generated_without_key "summary" genNoKeyResp []
    (Json.obj [("error", .bool false),
      ("body", .obj [("status", .str "generated")])])
    (Json.obj [("status", .str "generated")])).1 rfl rfl rfl rfl

/-- C7: when the initial GET of `get_data_for_existing_sample` cannot
extract `result["body"][action]` (the action does not yet exist), the
request trace is exactly one GET, then exactly one POST, then the action
poller's GETs: the POST count of the whole invocation is 1, and the value
returned is the poller's. -/
theorem C7_lazy_provisioning (action : String) (getResp : Response)
    (pollResps : List Response) :
    existing_action_data action getResp = none →
    (get_data_for_existing_sample action getResp pollResps).2
        = Method.GET :: Method.POST ::
            List.replicate (wait_for_sample_action action pollResps).2 Method.GET
  ∧ ((get_data_for_existing_sample action getResp pollResps).2).count
        Method.POST = 1
  ∧ (get_data_for_existing_sample action getResp pollResps).1
      = (wait_for_sample_action action pollResps).1 := by
  intro h
  refine ⟨?_, ?_, ?_⟩
  · simp [get_data_for_existing_sample, h]
  · simp [get_data_for_existing_sample, h, List.count_cons,
      count_post_replicate_get]
  · simp [get_data_for_existing_sample, h]

/-- Witness for C7: a sample whose summary does not exist yet (the GET
response carries no `summary` key); one POST, then one poll GET. -/
theorem C7_lazy_provisioning_witness :
    (get_data_for_existing_sample "summary" pendingResp [genSummaryResp]).2
      = [Method.GET, Method.POST, Method.GET]
  ∧ ((get_data_for_existing_sample "summary" pendingResp [genSummaryResp]).2).count
      Method.POST = 1 :=
  ⟨(C7_lazy_provisioning "summary" pendingResp [genSummaryResp] rfl).1,
   (C7_lazy_provisioning "summary" pendingResp [genSummaryResp] rfl).2.1⟩

/-- C2 counterexample: the uploader never inspects the HTTP status or the
`error` flag — given a non-200 response whose body is an `error: true`
envelope that still contains `body.sampleId`, it returns the sample ID, not
an absent result; and a transport failure is not caught at all (the POST is
outside the `try`), so it propagates instead of yielding an absent
result. -/
theorem C2_counterexample :
    upload_sample (.ok ⟨500, some (.obj [("error", .bool true),
        ("body", .obj [("sampleId", .str "abc123")])])⟩)
      = .ok (some (.str "abc123"))
  ∧ upload_sample (.error ()) = .error () :=
  ⟨rfl, rfl⟩

/-- C2 amended: the uploader returns exactly `body.sampleId` whenever the
response text parses as JSON containing that field (the spec's example
response included), regardless of HTTP status or `error` flag; it returns
an absent result exactly when the text is not valid JSON or the
`body`/`sampleId` chain is missing, after which the e2e caller aborts with
exit code 1 and issues no further network call; a transport exception
propagates uncaught rather than producing an absent result. -/
theorem C2_uploader (r : Response) :
    (∀ (j body sid : Json), r.jsonBody = some j → j.get "body" = some body →
        body.get "sampleId" = some sid → upload_sample (.ok r) = .ok (some sid))
  ∧ (r.jsonBody = none → upload_sample (.ok r) = .ok none)
  ∧ (∀ (j : Json), r.jsonBody = some j → j.get "body" = none →
        upload_sample (.ok r) = .ok none)
  ∧ (∀ (j body : Json), r.jsonBody = some j → j.get "body" = some body →
        body.get "sampleId" = none → upload_sample (.ok r) = .ok none)
  ∧ (upload_sample (.ok r) = .ok none →
      ∀ (parse : String → Option Json) (procResps : List Response)
        (sumPost : Response) (sumPolls : List Response),
        run_e2e parse "pcap capture file" (.ok r) procResps sumPost sumPolls
          = ⟨[.upload], .exited 1, none⟩)
  ∧ upload_sample (.error ()) = .error () := by
  refine ⟨fun j body sid h1 h2 h3 => ?_, fun h => ?_, fun j h1 h2 => ?_,
    fun j body h1 h2 h3 => ?_, fun h parse p sp sps => ?_, rfl⟩
  · simp [upload_sample, h1, h2, h3]
  · simp [upload_sample, h]
  · simp [upload_sample, h1, h2]
  · simp [upload_sample, h1, h2, h3]
  · simp [run_e2e, classify_pcap_fixture, h]

/-- Witness for C2 (amended): the spec's example success response yields
exactly `"abc123"`, and an error-envelope response without `sampleId`
aborts the run right after the upload. -/
theorem C2_uploader_witness :
    upload_sample (.ok goodUploadResp) = .ok (some (.str "abc123"))
  ∧ run_e2e (fun _ => none) "pcap capture file" (.ok badUploadResp) []
      goodSumPostResp [] = ⟨[.upload], .exited 1, none⟩ :=
  ⟨(C2_uploader goodUploadResp).1 _ _ _ rfl rfl rfl,
   (C2_uploader badUploadResp).2.2.2.2.1 rfl (fun _ => none) []
     goodSumPostResp []⟩

/-- C5 counterexample: `summarize_sample` never reads the status code of
the initial summary POST — a 500 response whose JSON body says
`error: false` proceeds to polling (one poll GET here) and the e2e run goes
on to exit 0, so a non-200 status on that POST is not fatal. -/
theorem C5_counterexample :
    summarize_sample ⟨500, some (.obj [("error", .bool false)])⟩ [genSummaryResp]
      = (some (some (.str "{...}")), 1)
  ∧ (run_e2e (fun _ => some demoSummaryJson) "pcap capture file"
      (.ok goodUploadResp) [processedResp]
      ⟨500, some (.obj [("error", .bool false)])⟩ [genSummaryResp]).outcome
      = .exited 0 :=
  ⟨rfl, rfl⟩

/-- C5 amended: an `error: true` envelope — or an unparseable body, or a
body without the `error` field — on the initial summary-request POST is
fatal: `summarize_sample` returns `None` having issued no poll GET, and
the e2e run exits 1 right after the POST.  The HTTP status code of that
POST is, however, never examined. -/
theorem C5_summary_post (r : Response) (polls : List Response) :
    (r.jsonBody = none → summarize_sample r polls = (some none, 0))
  ∧ (∀ (j : Json), r.jsonBody = some j → j.get "error" = none →
      summarize_sample r polls = (some none, 0))
  ∧ (∀ (j e : Json), r.jsonBody = some j → j.get "error" = some e →
      e.truthy = true → summarize_sample r polls = (some none, 0))
  ∧ (summarize_sample r polls = (some none, 0) →
      ∀ (parse : String → Option Json),
        run_e2e parse "pcap capture file" (.ok goodUploadResp) [processedResp]
          r polls = ⟨[.upload, .getMetadata, .postSummary], .exited 1, none⟩) := by
  refine ⟨fun h => ?_, fun j h1 h2 => ?_, fun j e h1 h2 h3 => ?_,
    fun h parse => ?_⟩
  · simp [summarize_sample, h]
  · simp [summarize_sample, h1, h2]
  · simp [summarize_sample, h1, h2, h3]
  · simp [run_e2e, e2e_summary_phase, classify_pcap_fixture,
      upload_good_fixture, processing_good_fixture, h]

/-- Witness for C5 (amended) at a concrete `error: true` POST response. -/
theorem C5_summary_post_witness :
    summarize_sample errSumPostResp [genSummaryResp] = (some none, 0)
  ∧ run_e2e (fun _ => none) "pcap capture file" (.ok goodUploadResp)
      [processedResp] errSumPostResp [genSummaryResp]
      = ⟨[.upload, .getMetadata, .postSummary], .exited 1, none⟩ :=
  ⟨(C5_summary_post errSumPostResp [genSummaryResp]).2.2.1 _ _ rfl rfl rfl,
   (C5_summary_post errSumPostResp [genSummaryResp]).2.2.2
     ((C5_summary_post errSumPostResp [genSummaryResp]).2.2.1 _ _ rfl rfl rfl)
     (fun _ => none)⟩

/-- C6: when the parsed summary body carries the string fields `verdict`,
`confidence`, `summary` and `details`, the written report is the fixed
Markdown template holding the four labeled sections in the order Verdict,
Confidence, Summary, Details, and the e2e run exits 0 with that content in
the output file; when the template cannot be built (a field missing), the
e2e run exits 1. -/
theorem C6_report (sum_json : Json) (v c s d : String) :
    (sum_json.get "verdict" = some (.str v) →
     sum_json.get "confidence" = some (.str c) →
     sum_json.get "summary" = some (.str s) →
     sum_json.get "details" = some (.str d) →
     writeReport sum_json =
       some ("\n\n**Verdict:** " ++ v ++ "\n**Confidence:** " ++ c ++
             "\n**Summary:** " ++ s ++ "\n\n**Details:** " ++ d ++ "\n\n"))
  ∧ (∀ content, writeReport sum_json = some content →
      run_e2e (fun _ => some sum_json) "pcap capture file" (.ok goodUploadResp)
        [processedResp] goodSumPostResp [genSummaryResp]
        = ⟨goodCalls, .exited 0, some content⟩)
  ∧ (writeReport sum_json = none →
      (run_e2e (fun _ => some sum_json) "pcap capture file"
        (.ok goodUploadResp) [processedResp] goodSumPostResp
        [genSummaryResp]).outcome = .exited 1) := by
  refine ⟨fun h1 h2 h3 h4 => ?_, fun content h => ?_, fun h => ?_⟩
  · simp [writeReport, h1, h2, h3, h4]
  · simp [run_e2e_good_to_report, h]
  · simp [run_e2e_good_to_report, h]

/-- Witness for C6 on the spec's example summary body. -/
theorem C6_report_witness :
    writeReport demoSummaryJson = some
      "\n\n**Verdict:** Benign\n**Confidence:** High\n**Summary:** No threats found.\n\n**Details:** ...\n\n"
  ∧ run_e2e (fun _ => some demoSummaryJson) "pcap capture file"
      (.ok goodUploadResp) [processedResp] goodSumPostResp [genSummaryResp]
      = ⟨goodCalls, .exited 0, some
      "\n\n**Verdict:** Benign\n**Confidence:** High\n**Summary:** No threats found.\n\n**Details:** ...\n\n"⟩ := by
  have h := C6_report demoSummaryJson "Benign" "High" "No threats found." "..."
  have h1 := h.1 rfl rfl rfl rfl
  exact ⟨h1, h.2.1 _ h1⟩

/-- C10: `open(output_filename, "w")` truncates the output file before the
first summary field is read, so an e2e run whose summary body cannot fill
the template (a field missing) exits with code 1 leaving behind an opened,
empty output file (`some ""`), not an untouched one (`none`). -/
theorem C10_truncated_output (sum_json : Json) :
    writeReport sum_json = none →
    run_e2e (fun _ => some sum_json) "pcap capture file" (.ok goodUploadResp)
        [processedResp] goodSumPostResp [genSummaryResp]
      = ⟨goodCalls, .exited 1, some ""⟩
    ∧ (some "" : Option String) ≠ none := by
  intro h
  exact ⟨by simp [run_e2e_good_to_report, h], by simp⟩

/-- Witness for C10 on a summary body missing everything but `verdict`. -/
theorem C10_truncated_output_witness :
    run_e2e (fun _ => some (Json.obj [("verdict", Json.str "Benign")]))
      "pcap capture file" (.ok goodUploadResp) [processedResp] goodSumPostResp
      [genSummaryResp] = ⟨goodCalls, .exited 1, some ""⟩ :=
  (C10_truncated_output (Json.obj [("verdict", Json.str "Benign")]) rfl).1

end Demo
